import Mathlib

set_option maxRecDepth 8000

/-!
Verification of the radial-velocity dashboard (`mini_project_v2.py`).

The development shallowly embeds the core logic of the script:

* `calculate_radial_velocity` — the amplitude formula (source lines 62–75),
  with the unit-conversion constants the script obtains from `astropy`
  (`G.value`, the Earth-mass and solar-mass kilogram factors, the
  day-to-second factor), idealised over the real numbers;
* `generate_radial_velocity_curve` — curve synthesis via `np.linspace`
  (lines 79–82);
* the data-acquisition and render-pass fragments: `fetch_exoplanet_data`
  (lines 26–59, modelled on an explicit HTTP response value), the
  `dropna` over the five required columns (line 97), the sidebar slider
  setup (lines 95–104), the mass/period filter (line 120) and the tab-1
  curve loop (lines 127–139).

Tables are lists of `PlanetRow`; numeric cells are `Option ℚ`
(a JSON number is a decimal rational, a missing cell is `none`, mirroring
pandas `NaN` whose comparisons are all false and which `dropna` removes).
-/

namespace MiniProject

open Real

/-- `astropy.constants.G.value`, in m³ kg⁻¹ s⁻² (CODATA: 6.6743e-11). -/
noncomputable def G_const : ℝ := 6.6743e-11

/-- Kilograms per Earth mass as astropy derives it: the IAU 2015 nominal
`GM_earth = 3.986004e14` divided by `G` (≈ 5.9721678678e24 kg). -/
noncomputable def M_earth_kg : ℝ := 3.986004e14 / 6.6743e-11

/-- Kilograms per solar mass as astropy derives it: the IAU 2015 nominal
`GM_sun = 1.3271244e20` divided by `G` (≈ 1.9884098707e30 kg). -/
noncomputable def M_sun_kg : ℝ := 1.3271244e20 / 6.6743e-11

/-- Seconds per day, the `u.day → u.second` conversion factor. -/
noncomputable def day_to_second : ℝ := 86400

/-- Source lines 62–75.  The script multiplies the inputs by the astropy
unit-conversion factors and evaluates
`((2*np.pi*G_const) / P_s)**(1/3) * Mp_kg / (Ms_kg**(2/3)) / np.sqrt(1 - e**2)`. -/
noncomputable def calculate_radial_velocity (planet_mass star_mass orbital_period eccentricity : ℝ) : ℝ :=
  let planet_mass_kg := planet_mass * M_earth_kg
  let star_mass_kg := star_mass * M_sun_kg
  let orbital_period_s := orbital_period * day_to_second
  ((2 * Real.pi * G_const) / orbital_period_s) ^ ((1 : ℝ)/3) * planet_mass_kg /
      star_mass_kg ^ ((2 : ℝ)/3) / Real.sqrt (1 - eccentricity ^ 2)

/-- The amplitude formula exactly as the specification words it (§4.2):
`K = [ (2π·G / P_seconds) ^ (1/3) ] · M_planet_kg / (M_star_kg ^ (2/3)) / sqrt(1 − e²)`
with `P_seconds`, `M_planet_kg`, `M_star_kg` obtained from the day-to-second,
Earth-mass and solar-mass factors and `G = 6.67430e-11`. -/
noncomputable def amplitude_spec (planetMassEarth starMassSolar periodDays eccentricity : ℝ) : ℝ :=
  ((2 * Real.pi * 6.6743e-11) / (periodDays * 86400)) ^ ((1 : ℝ)/3) *
      (planetMassEarth * M_earth_kg) / ((starMassSolar * M_sun_kg) ^ ((2 : ℝ)/3)) /
      Real.sqrt (1 - eccentricity ^ 2)

end MiniProject

namespace MiniProject

/-- C1: on every valid input the amplitude computed by the script coincides with
the specification's closed-form formula with the standard conversion factors and
`G = 6.67430e-11`. -/
theorem calculate_radial_velocity_eq_spec (Mp Ms P e : ℝ)
    (hMp : 0 < Mp) (hMs : 0 < Ms) (hP : 0 < P) (he0 : 0 ≤ e) (he1 : e < 1) :
    calculate_radial_velocity Mp Ms P e = amplitude_spec Mp Ms P e := by
  rfl

/-- C1 witness: the Earth–Sun analog input satisfies the hypotheses and the
code and spec formulas agree there. -/
theorem calculate_radial_velocity_eq_spec_witness :
    calculate_radial_velocity 1 1 365 0 = amplitude_spec 1 1 365 0 :=
  calculate_radial_velocity_eq_spec 1 1 365 0 (by norm_num) (by norm_num)
    (by norm_num) (by norm_num) (by norm_num)

/-- C6: on valid inputs the amplitude is deterministic (equal on repeated
invocation) and scales linearly in the planet mass. -/
theorem calculate_radial_velocity_linear_in_mass (Mp Ms P e : ℝ)
    (hMp : 0 < Mp) (hMs : 0 < Ms) (hP : 0 < P) (he0 : 0 ≤ e) (he1 : e < 1) :
    calculate_radial_velocity Mp Ms P e = calculate_radial_velocity Mp Ms P e ∧
      calculate_radial_velocity (2 * Mp) Ms P e =
        2 * calculate_radial_velocity Mp Ms P e := by
  refine ⟨rfl, ?_⟩
  unfold calculate_radial_velocity
  ring

/-- C6 witness: determinism and mass-linearity at the Earth–Sun analog input. -/
theorem calculate_radial_velocity_linear_in_mass_witness :
    calculate_radial_velocity (2 * 1) 1 365 0 = 2 * calculate_radial_velocity 1 1 365 0 :=
  (calculate_radial_velocity_linear_in_mass 1 1 365 0 (by norm_num) (by norm_num)
    (by norm_num) (by norm_num) (by norm_num)).2

end MiniProject

namespace MiniProject

/-- `np.linspace(start, stop, num)` with the default `endpoint=True`:
`num` samples `start + (stop - start) * i / (num - 1)`. -/
noncomputable def linspace (start stop : ℝ) (num : ℕ) : List ℝ :=
  (List.range num).map (fun i : ℕ => start + (stop - start) * (i : ℝ) / ((num : ℝ) - 1))

/-- Source lines 79–82: `time = np.linspace(0, time_span, 1000)` and
`velocity = K * np.sin(2 * np.pi * time / P)`. -/
noncomputable def generate_radial_velocity_curve (K P time_span : ℝ) : List ℝ × List ℝ :=
  let time := linspace 0 time_span 1000
  let velocity := time.map (fun t => K * Real.sin (2 * Real.pi * t / P))
  (time, velocity)

lemma linspace_getElem (start stop : ℝ) (num i : ℕ) (h : i < num) :
    (linspace start stop num)[i]? = some (start + (stop - start) * (i : ℝ) / ((num : ℝ) - 1)) := by
  simp [linspace, List.getElem?_range h]

/-- C4: for every `K`, `P > 0` and `T ≥ 0` the synthesized curve has exactly
1000 samples, evenly spaced over `[0, T]` with both endpoints included (the
`i`-th time is `T·i/999`, so the first is `0` and the last is `T`), each
velocity is `K·sin(2π·t/P)`, and the velocity at `t = 0` is `0`. -/
theorem generate_radial_velocity_curve_spec (K P T : ℝ) (hP : 0 < P) (hT : 0 ≤ T) :
    (generate_radial_velocity_curve K P T).1.length = 1000 ∧
      (generate_radial_velocity_curve K P T).2.length = 1000 ∧
      (∀ i : ℕ, i < 1000 →
        (generate_radial_velocity_curve K P T).1[i]? = some (T * i / 999)) ∧
      (generate_radial_velocity_curve K P T).1[0]? = some 0 ∧
      (generate_radial_velocity_curve K P T).1[999]? = some T ∧
      (∀ i : ℕ, i < 1000 →
        (generate_radial_velocity_curve K P T).2[i]? =
          some (K * Real.sin (2 * Real.pi * (T * i / 999) / P))) ∧
      (generate_radial_velocity_curve K P T).2[0]? = some 0 := by
  have htime : ∀ i : ℕ, i < 1000 →
      (generate_radial_velocity_curve K P T).1[i]? = some (T * i / 999) := by
    intro i hi
    calc (generate_radial_velocity_curve K P T).1[i]?
        = (linspace 0 T 1000)[i]? := rfl
      _ = some (0 + (T - 0) * (i : ℝ) / ((1000 : ℝ) - 1)) := linspace_getElem 0 T 1000 i hi
      _ = some (T * i / 999) := by norm_num
  have hvel : ∀ i : ℕ, i < 1000 →
      (generate_radial_velocity_curve K P T).2[i]? =
        some (K * Real.sin (2 * Real.pi * (T * i / 999) / P)) := by
    intro i hi
    calc (generate_radial_velocity_curve K P T).2[i]?
        = ((linspace 0 T 1000).map (fun t => K * Real.sin (2 * Real.pi * t / P)))[i]? := rfl
      _ = Option.map (fun t => K * Real.sin (2 * Real.pi * t / P)) (linspace 0 T 1000)[i]? := by
          rw [List.getElem?_map]
      _ = Option.map (fun t => K * Real.sin (2 * Real.pi * t / P))
            ((generate_radial_velocity_curve K P T).1[i]?) := rfl
      _ = some (K * Real.sin (2 * Real.pi * (T * i / 999) / P)) := by
          rw [htime i hi]; rfl
  refine ⟨?_, ?_, htime, ?_, ?_, hvel, ?_⟩
  · show (linspace 0 T 1000).length = 1000
    simp [linspace]
  · show ((linspace 0 T 1000).map _).length = 1000
    simp [linspace]
  · rw [htime 0 (by norm_num)]
    norm_num
  · rw [htime 999 (by norm_num)]
    norm_num
  · rw [hvel 0 (by norm_num)]
    norm_num

/-- C4 witness: at `K = 1`, `P = 1`, `T = 2` the curve has 1000 samples and
starts at time 0. -/
theorem generate_radial_velocity_curve_spec_witness :
    (generate_radial_velocity_curve 1 1 2).1.length = 1000 ∧
      (generate_radial_velocity_curve 1 1 2).1[0]? = some 0 :=
  ⟨(generate_radial_velocity_curve_spec 1 1 2 (by norm_num) (by norm_num)).1,
   (generate_radial_velocity_curve_spec 1 1 2 (by norm_num) (by norm_num)).2.2.2.1⟩

end MiniProject

namespace MiniProject

/-- One row of the fetched table (the six queried columns plus the planet
name).  A numeric cell is `Option ℚ`: a JSON number is a decimal rational and
a missing cell (`null`, pandas `NaN`) is `none`. -/
structure PlanetRow where
  pl_name : String
  hostname : String
  pl_bmasse : Option ℚ
  pl_orbper : Option ℚ
  pl_orbsmax : Option ℚ
  pl_orbeccen : Option ℚ
  st_mass : Option ℚ
deriving DecidableEq

/-- The archive's reply to the TAP request: a status code and the parsed
JSON row array. -/
structure HttpResponse where
  status_code : Nat
  body : List PlanetRow

/-- Source lines 52–59: on status 200 the JSON rows become the dataframe,
otherwise `st.error` shows a notice and the function returns `None`. -/
def fetch_exoplanet_data (response : HttpResponse) : Option (List PlanetRow) :=
  if response.status_code = 200 then some response.body else none

/-- A row has all five required numeric fields present (the `dropna` subset
of source line 97). -/
def hasRequiredFields (r : PlanetRow) : Bool :=
  r.pl_bmasse.isSome && r.pl_orbper.isSome && r.pl_orbsmax.isSome &&
    r.pl_orbeccen.isSome && r.st_mass.isSome

/-- Source line 97: `df.dropna(subset=['pl_bmasse', 'pl_orbper', 'pl_orbsmax',
'pl_orbeccen', 'st_mass'])`. -/
def dropna_required (df : List PlanetRow) : List PlanetRow :=
  df.filter hasRequiredFields

/-- `pandas.Series.min` over the present values of a column (`none` on an
empty column, where pandas yields `NaN`). -/
def series_min (xs : List ℚ) : Option ℚ := xs.min?

/-- `pandas.Series.max` over the present values of a column. -/
def series_max (xs : List ℚ) : Option ℚ := xs.max?

/-- The sidebar state built by source lines 95–104: the (dropna-cleaned)
dataframe, the slider bounds read off its mass and period columns, and the
eccentricity slider value. -/
structure SidebarState where
  df : List PlanetRow
  mass_lo : Option ℚ
  mass_hi : Option ℚ
  period_lo : Option ℚ
  period_hi : Option ℚ
  eccentricity : ℚ

/-- Source lines 95–104.  `df = fetch_exoplanet_data(...)`; the `dropna` runs
only under `if df is not None:`; but the very next statements evaluate
`df['pl_bmasse'].min()` (and the other slider bounds) unconditionally, so a
failed fetch leaves `df = None` and subscripting it raises a `TypeError`,
modelled as `Except.error`. -/
def sidebar_pass (response : HttpResponse) (ecc_slider : ℚ) :
    Except String SidebarState :=
  let df0 := fetch_exoplanet_data response
  let df1 := Option.map dropna_required df0
  match df1 with
  | none => Except.error "TypeError: NoneType object is not subscriptable"
  | some d =>
      Except.ok
        { df := d
          mass_lo := series_min (d.filterMap (fun r => r.pl_bmasse))
          mass_hi := series_max (d.filterMap (fun r => r.pl_bmasse))
          period_lo := series_min (d.filterMap (fun r => r.pl_orbper))
          period_hi := series_max (d.filterMap (fun r => r.pl_orbper))
          eccentricity := ecc_slider }

/-- Pandas semantics of `(df[c] >= lo) & (df[c] <= hi)` for one cell: a
present value is compared, a missing value (`NaN`) compares false. -/
def inRange (v : Option ℚ) (lo hi : ℚ) : Bool :=
  match v with
  | some x => decide (lo ≤ x) && decide (x ≤ hi)
  | none => false

/-- Source line 120: `df[(df['pl_bmasse'] >= min_mass) & (df['pl_bmasse'] <=
max_mass) & (df['pl_orbper'] >= min_period) & (df['pl_orbper'] <= max_period)]`. -/
def filtered_df (df : List PlanetRow) (min_mass max_mass min_period max_period : ℚ) :
    List PlanetRow :=
  df.filter (fun r =>
    inRange r.pl_bmasse min_mass max_mass && inRange r.pl_orbper min_period max_period)

/-- The body of the tab-1 loop (source lines 127–139) for one surviving row:
`K = calculate_radial_velocity(planet_mass, star_mass, orbital_period,
eccentricity)` with the sidebar eccentricity slider value, then
`generate_radial_velocity_curve(K, orbital_period, orbital_period * 2)`. -/
noncomputable def planet_curve (planet : PlanetRow) (eccentricity : ℝ) : List ℝ × List ℝ :=
  let planet_mass : ℝ := (planet.pl_bmasse.getD 0 : ℚ)
  let orbital_period : ℝ := (planet.pl_orbper.getD 0 : ℚ)
  let star_mass : ℝ := (planet.st_mass.getD 0 : ℚ)
  let K := calculate_radial_velocity planet_mass star_mass orbital_period eccentricity
  generate_radial_velocity_curve K orbital_period (orbital_period * 2)

/-- Source lines 127–139: the loop adds one curve per row of `filtered_df`,
every one computed with the same slider eccentricity. -/
noncomputable def tab1_curves (filtered : List PlanetRow) (eccentricity : ℝ) :
    List (List ℝ × List ℝ) :=
  filtered.map (fun p => planet_curve p eccentricity)

end MiniProject

namespace MiniProject

/-- C2 (code bug, evaluated at the failing input): an HTTP 500 reply makes
`fetch_exoplanet_data` yield no table — that much the claim gets right — but
the sidebar then subscripts the absent dataframe for the mass-slider bound and
raises, so the render pass crashes instead of proceeding. -/
theorem fetch_500_crashes_sidebar :
    fetch_exoplanet_data ⟨500, []⟩ = none ∧
      sidebar_pass ⟨500, []⟩ 0 =
        Except.error "TypeError: NoneType object is not subscriptable" :=
  ⟨rfl, rfl⟩

/-- A concrete row whose mass cell is missing and whose other required cells
are present. -/
def row_missing_mass : PlanetRow :=
  { pl_name := "planet a", hostname := "star a", pl_bmasse := none,
    pl_orbper := some 33, pl_orbsmax := some 1, pl_orbeccen := some 0,
    st_mass := some 1 }

/-- A concrete row whose period cell is missing but whose mass is present. -/
def row_missing_period : PlanetRow :=
  { pl_name := "planet b", hostname := "star b", pl_bmasse := some 7,
    pl_orbper := none, pl_orbsmax := some 1, pl_orbeccen := some 0,
    st_mass := some 1 }

/-- C8 counterexample: in the two-row table `[row_missing_mass,
row_missing_period]` exactly one row has a missing mass value, yet `dropna`
also removes the second row (missing period), so the surviving count is 0,
not the original count minus 1. -/
theorem dropna_one_missing_mass_count_counterexample :
    List.countP (fun r => r.pl_bmasse.isNone) [row_missing_mass, row_missing_period] = 1 ∧
      (dropna_required [row_missing_mass, row_missing_period]).length ≠
        (List.length [row_missing_mass, row_missing_period]) - 1 := by
  refine ⟨rfl, ?_⟩
  show (0 : ℕ) ≠ 1
  decide

lemma countP_filter_length (df : List PlanetRow) :
    df.length = df.countP hasRequiredFields + df.countP (fun q => !hasRequiredFields q) := by
  induction df with
  | nil => rfl
  | cons a l ih =>
      by_cases h : hasRequiredFields a = true <;>
        simp [List.countP_cons, h, ih] <;> omega

/-- C8 (amended): every row missing a required numeric field is dropped by
`dropna` and so appears in neither the chart data (`filtered_df` of the
cleaned table) nor the table view (the cleaned table itself); and when
exactly one row of the table is incomplete (in any required field, all other
rows being complete), the surviving count is the original count minus 1. -/
theorem dropna_incomplete_row_dropped (df : List PlanetRow) (r : PlanetRow)
    (mn mx pn px : ℚ) (hr : r ∈ df) (hmiss : hasRequiredFields r = false) :
    (r ∉ dropna_required df ∧
        r ∉ filtered_df (dropna_required df) mn mx pn px) ∧
      (df.countP (fun q => !hasRequiredFields q) = 1 →
        (dropna_required df).length = df.length - 1) := by
  have hnot : r ∉ dropna_required df := by
    intro hmem
    have := (List.mem_filter.mp hmem).2
    rw [hmiss] at this
    exact Bool.false_ne_true this
  refine ⟨⟨hnot, ?_⟩, ?_⟩
  · intro hmem
    exact hnot (List.mem_filter.mp hmem).1
  · intro hone
    have hlen : (dropna_required df).length = df.countP hasRequiredFields := by
      rw [dropna_required, ← List.countP_eq_length_filter]
    have htot := countP_filter_length df
    omega

/-- C8 witness: in the one-row table holding only the mass-missing row, that
row is absent from the cleaned table and the chart data, and the surviving
count is the original count minus 1. -/
theorem dropna_incomplete_row_dropped_witness :
    (row_missing_mass ∉ dropna_required [row_missing_mass] ∧
        row_missing_mass ∉ filtered_df (dropna_required [row_missing_mass]) 0 0 0 0) ∧
      (dropna_required [row_missing_mass]).length = (List.length [row_missing_mass]) - 1 := by
  have h := dropna_incomplete_row_dropped [row_missing_mass] row_missing_mass 0 0 0 0
    (List.mem_singleton.mpr rfl) rfl
  exact ⟨h.1, h.2 rfl⟩

/-- C9: the tab-1 loop computes every plotted amplitude with the single
slider eccentricity: the archive-reported `pl_orbeccen` cells can be
rewritten arbitrarily without changing any curve, and each curve is exactly
the one generated from the row's mass, star mass and period together with
the slider value. -/
theorem tab1_curves_use_slider_eccentricity (rows : List PlanetRow) (ecc : ℝ)
    (f : PlanetRow → Option ℚ) :
    tab1_curves (rows.map (fun r => { r with pl_orbeccen := f r })) ecc =
        tab1_curves rows ecc ∧
      tab1_curves rows ecc =
        rows.map (fun p =>
          generate_radial_velocity_curve
            (calculate_radial_velocity ((p.pl_bmasse.getD 0 : ℚ) : ℝ)
              ((p.st_mass.getD 0 : ℚ) : ℝ) ((p.pl_orbper.getD 0 : ℚ) : ℝ) ecc)
            ((p.pl_orbper.getD 0 : ℚ) : ℝ) (((p.pl_orbper.getD 0 : ℚ) : ℝ) * 2)) := by
  constructor
  · unfold tab1_curves
    rw [List.map_map]
    apply List.map_congr_left
    intro r _
    rfl
  · unfold tab1_curves
    apply List.map_congr_left
    intro p _
    rfl

/-- True range predicate of the mass/period filter on one cell. -/
lemma inRange_eq_true_iff (v : Option ℚ) (lo hi : ℚ) :
    inRange v lo hi = true ↔ ∃ x, v = some x ∧ lo ≤ x ∧ x ≤ hi := by
  cases v <;> simp [inRange]

/-- C10: the mass/period filter is sound and complete for its range
predicate — a row is in `filtered_df` exactly when it is a row of the input
whose mass and period cells hold values inside the chosen ranges — and the
filter is idempotent (so in particular it never adds rows). -/
theorem filtered_df_sound_complete_idempotent (df : List PlanetRow)
    (mn mx pn px : ℚ) :
    (∀ r : PlanetRow, r ∈ filtered_df df mn mx pn px ↔
        (r ∈ df ∧ (∃ m, r.pl_bmasse = some m ∧ mn ≤ m ∧ m ≤ mx) ∧
          (∃ p, r.pl_orbper = some p ∧ pn ≤ p ∧ p ≤ px))) ∧
      filtered_df (filtered_df df mn mx pn px) mn mx pn px =
        filtered_df df mn mx pn px := by
  constructor
  · intro r
    rw [filtered_df, List.mem_filter, Bool.and_eq_true,
      inRange_eq_true_iff, inRange_eq_true_iff]
  · apply List.filter_eq_self.mpr
    intro a ha
    exact (List.mem_filter.mp ha).2

end MiniProject

namespace MiniProject

lemma le_rpow_third {x a : ℝ} (ha : 0 ≤ a) (h : a ^ (3:ℕ) ≤ x) : a ≤ x ^ ((1:ℝ)/3) := by
  calc a = (a ^ (3:ℕ)) ^ ((1:ℝ)/3) := by
        rw [← Real.rpow_natCast a 3, ← Real.rpow_mul ha]
        norm_num
    _ ≤ x ^ ((1:ℝ)/3) := Real.rpow_le_rpow (pow_nonneg ha 3) h (by norm_num)

lemma rpow_third_le {x b : ℝ} (hx : 0 ≤ x) (hb : 0 ≤ b) (h : x ≤ b ^ (3:ℕ)) :
    x ^ ((1:ℝ)/3) ≤ b := by
  calc x ^ ((1:ℝ)/3) ≤ (b ^ (3:ℕ)) ^ ((1:ℝ)/3) := Real.rpow_le_rpow hx h (by norm_num)
    _ = b := by
        rw [← Real.rpow_natCast b 3, ← Real.rpow_mul hb]
        norm_num

lemma two_thirds_as_sq_third {x : ℝ} (hx : 0 ≤ x) :
    x ^ ((2:ℝ)/3) = (x ^ (2:ℕ)) ^ ((1:ℝ)/3) := by
  rw [← Real.rpow_natCast x 2, ← Real.rpow_mul hx]
  norm_num

/-- C5: the Earth–Sun analog `calculate_radial_velocity(1, 1, 365, 0)` lies
within ±10% of 0.09 m/s, i.e. in `[0.081, 0.099]` (in fact in
`[0.0894, 0.0895]`), confirming units and constants. -/
theorem earth_sun_amplitude_in_range :
    (0.081 : ℝ) ≤ calculate_radial_velocity 1 1 365 0 ∧
      calculate_radial_velocity 1 1 365 0 ≤ 0.099 := by
  have hMe_pos : (0:ℝ) < M_earth_kg := by norm_num [M_earth_kg]
  have hMs_pos : (0:ℝ) < M_sun_kg := by norm_num [M_sun_kg]
  have hpi_lo := Real.pi_gt_d6
  have hpi_hi := Real.pi_lt_d6
  have harg_pos : (0:ℝ) < 2 * Real.pi * G_const / (365 * day_to_second) := by
    have := Real.pi_pos
    rw [G_const, day_to_second]
    positivity
  -- bounds on the cube-root factor
  have hA_lo : (2.3691e-6 : ℝ) ≤ (2 * Real.pi * G_const / (365 * day_to_second)) ^ ((1:ℝ)/3) := by
    apply le_rpow_third (by norm_num)
    rw [G_const, day_to_second, le_div_iff (by norm_num)]
    nlinarith
  have hA_hi : (2 * Real.pi * G_const / (365 * day_to_second)) ^ ((1:ℝ)/3) ≤ (2.3692e-6 : ℝ) := by
    apply rpow_third_le (le_of_lt harg_pos) (by norm_num)
    rw [G_const, day_to_second, div_le_iff (by norm_num)]
    nlinarith
  -- bounds on the star-mass factor
  have hC_eq : (M_sun_kg) ^ ((2:ℝ)/3) = (M_sun_kg ^ (2:ℕ)) ^ ((1:ℝ)/3) :=
    two_thirds_as_sq_third (le_of_lt hMs_pos)
  have hC_lo : (1.5812e20 : ℝ) ≤ (M_sun_kg) ^ ((2:ℝ)/3) := by
    rw [hC_eq]
    apply le_rpow_third (by norm_num)
    rw [M_sun_kg]
    norm_num
  have hC_hi : (M_sun_kg) ^ ((2:ℝ)/3) ≤ (1.5813e20 : ℝ) := by
    rw [hC_eq]
    apply rpow_third_le (by positivity) (by norm_num)
    rw [M_sun_kg]
    norm_num
  have hC_pos : (0:ℝ) < (M_sun_kg) ^ ((2:ℝ)/3) := Real.rpow_pos_of_pos hMs_pos _
  have hA_nonneg : (0:ℝ) ≤ (2 * Real.pi * G_const / (365 * day_to_second)) ^ ((1:ℝ)/3) :=
    le_of_lt (Real.rpow_pos_of_pos harg_pos _)
  -- rewrite the amplitude at the analog input
  have hK : calculate_radial_velocity 1 1 365 0 =
      (2 * Real.pi * G_const / (365 * day_to_second)) ^ ((1:ℝ)/3) * M_earth_kg /
        (M_sun_kg) ^ ((2:ℝ)/3) := by
    show (2 * Real.pi * G_const / (365 * day_to_second)) ^ ((1:ℝ)/3) * (1 * M_earth_kg) /
        ((1 * M_sun_kg) ^ ((2:ℝ)/3)) / Real.sqrt (1 - 0 ^ 2) = _
    norm_num
  rw [hK]
  constructor
  · calc (0.081 : ℝ) ≤ (2.3691e-6 : ℝ) * M_earth_kg / (1.5813e20 : ℝ) := by
          rw [M_earth_kg]
          rw [le_div_iff (by norm_num)]
          norm_num
      _ ≤ (2 * Real.pi * G_const / (365 * day_to_second)) ^ ((1:ℝ)/3) * M_earth_kg /
            (M_sun_kg) ^ ((2:ℝ)/3) := by
          apply div_le_div (by positivity)
            (mul_le_mul_of_nonneg_right hA_lo (le_of_lt hMe_pos)) hC_pos hC_hi
  · calc (2 * Real.pi * G_const / (365 * day_to_second)) ^ ((1:ℝ)/3) * M_earth_kg /
            (M_sun_kg) ^ ((2:ℝ)/3)
        ≤ (2.3692e-6 : ℝ) * M_earth_kg / (1.5812e20 : ℝ) := by
          apply div_le_div (by positivity)
            (mul_le_mul_of_nonneg_right hA_hi (le_of_lt hMe_pos)) (by norm_num) hC_lo
      _ ≤ (0.099 : ℝ) := by
          rw [M_earth_kg]
          rw [div_le_iff (by norm_num)]
          norm_num

end MiniProject

namespace MiniProject

lemma prefactor_pos (Mp Ms P : ℝ) (hMp : 0 < Mp) (hMs : 0 < Ms) (hP : 0 < P) :
    0 < ((2 * Real.pi * G_const) / (P * day_to_second)) ^ ((1:ℝ)/3) * (Mp * M_earth_kg) /
        ((Ms * M_sun_kg) ^ ((2:ℝ)/3)) := by
  have hMe_pos : (0:ℝ) < M_earth_kg := by norm_num [M_earth_kg]
  have hMs_pos : (0:ℝ) < M_sun_kg := by norm_num [M_sun_kg]
  have hG : (0:ℝ) < G_const := by norm_num [G_const]
  have hday : (0:ℝ) < day_to_second := by norm_num [day_to_second]
  have hbase : 0 < (2 * Real.pi * G_const) / (P * day_to_second) := by
    have := Real.pi_pos
    positivity
  exact div_pos (mul_pos (Real.rpow_pos_of_pos hbase _) (mul_pos hMp hMe_pos))
    (Real.rpow_pos_of_pos (mul_pos hMs hMs_pos) _)

/-- C7: for fixed positive planet mass, star mass and period, the amplitude is
monotonically non-decreasing in the eccentricity on `[0, 1)`, and it exceeds
every bound for eccentricities close enough to 1. -/
theorem calculate_radial_velocity_monotone_unbounded_in_ecc (Mp Ms P : ℝ)
    (hMp : 0 < Mp) (hMs : 0 < Ms) (hP : 0 < P) :
    (∀ e1 e2 : ℝ, 0 ≤ e1 → e1 ≤ e2 → e2 < 1 →
        calculate_radial_velocity Mp Ms P e1 ≤ calculate_radial_velocity Mp Ms P e2) ∧
      (∀ B : ℝ, ∃ e : ℝ, 0 ≤ e ∧ e < 1 ∧ B < calculate_radial_velocity Mp Ms P e) := by
  obtain ⟨c, hcpos, hK⟩ :
      ∃ c : ℝ, 0 < c ∧ ∀ e : ℝ,
        calculate_radial_velocity Mp Ms P e = c / Real.sqrt (1 - e ^ 2) :=
    ⟨((2 * Real.pi * G_const) / (P * day_to_second)) ^ ((1:ℝ)/3) * (Mp * M_earth_kg) /
        ((Ms * M_sun_kg) ^ ((2:ℝ)/3)),
      prefactor_pos Mp Ms P hMp hMs hP, fun e => rfl⟩
  constructor
  · intro e1 e2 h0 h12 h2
    rw [hK, hK]
    have h1 : e1 < 1 := lt_of_le_of_lt h12 h2
    have h20 : 0 ≤ e2 := le_trans h0 h12
    have hs2 : 0 < Real.sqrt (1 - e2 ^ 2) := Real.sqrt_pos.mpr (by nlinarith)
    have hmono : Real.sqrt (1 - e2 ^ 2) ≤ Real.sqrt (1 - e1 ^ 2) :=
      Real.sqrt_le_sqrt (by nlinarith)
    gcongr
  · intro B
    by_cases hB : B < c
    · refine ⟨0, le_refl 0, by norm_num, ?_⟩
      rw [hK]
      simpa using hB
    · push_neg at hB
      have hBpos : 0 < B := lt_of_lt_of_le hcpos hB
      have hspos : 0 < c / (2 * B) := div_pos hcpos (by positivity)
      have hshalf : c / (2 * B) ≤ 1 / 2 := by
        rw [div_le_div_iff (by positivity) (by norm_num)]
        nlinarith
      have h1s : 0 ≤ 1 - (c / (2 * B)) ^ 2 := by nlinarith
      have hesq : Real.sqrt (1 - (c / (2 * B)) ^ 2) ^ 2 = 1 - (c / (2 * B)) ^ 2 :=
        Real.sq_sqrt h1s
      refine ⟨Real.sqrt (1 - (c / (2 * B)) ^ 2), Real.sqrt_nonneg _, ?_, ?_⟩
      · nlinarith [Real.sqrt_nonneg (1 - (c / (2 * B)) ^ 2)]
      · rw [hK]
        have hrw : 1 - Real.sqrt (1 - (c / (2 * B)) ^ 2) ^ 2 = (c / (2 * B)) ^ 2 := by
          rw [hesq]; ring
        rw [hrw, Real.sqrt_sq (le_of_lt hspos)]
        have hcancel : c / (c / (2 * B)) = 2 * B := by
          field_simp
        rw [hcancel]
        linarith

/-- C7 witness: at the Earth–Sun analog the amplitude at eccentricity 0 is at
most the amplitude at eccentricity 1/2. -/
theorem calculate_radial_velocity_monotone_unbounded_in_ecc_witness :
    calculate_radial_velocity 1 1 365 0 ≤ calculate_radial_velocity 1 1 365 (1/2) :=
  (calculate_radial_velocity_monotone_unbounded_in_ecc 1 1 365 (by norm_num) (by norm_num)
      (by norm_num)).1 0 (1/2) (by norm_num) (by norm_num) (by norm_num)

end MiniProject
